import Mathlib

/-!
Verification of `youtube_say.py`: a polling relay loop that prints live-chat
messages and forwards sanitized utterances to a text-to-speech command.

The Python source is shallowly embedded below.  Strings are modelled as Lean
`String` (a list of characters); Python's `str.replace` with single-character
patterns is modelled char-by-char, `str.strip` by dropping whitespace from both
ends, `str.lower` by `Char.toLower`, and `str.lstrip("@")` by `List.dropWhile`.
-/

set_option maxRecDepth 4000

namespace YoutubeSay

/-- The double-quote character `"` (code point 34). -/
def dquote : Char := Char.ofNat 34

/-- The single-quote character (code point 39). -/
def squote : Char := Char.ofNat 39

/-- Python whitespace characters stripped by `str.strip()` (ASCII range). -/
def pyWhitespace (c : Char) : Bool :=
  c = ' ' || c = '\t' || c = '\n' || c = '\r' || c = '\x0b' || c = '\x0c'

/-- `str.strip()` on a character list: drop whitespace from both ends. -/
def pyStripChars (cs : List Char) : List Char :=
  ((cs.dropWhile pyWhitespace).reverse.dropWhile pyWhitespace).reverse

/-- `str.strip()` on a string. -/
def pyStrip (s : String) : String := ⟨pyStripChars s.data⟩

/-- The sanitization chain of `say`:
`text.replace('"', "").replace("'", "").replace("\n", " ")`,
modelled character-by-character (every pattern is a single character). -/
def sanitizeChars (cs : List Char) : List Char :=
  ((cs.filter (fun c => !(c == dquote))).filter (fun c => !(c == squote))).map
    (fun c => if c == '\n' then ' ' else c)

/-- Sanitization on strings. -/
def sanitize (s : String) : String := ⟨sanitizeChars s.data⟩

/-- Embedding of `say(text, voice)`.  Returns `none` when the utterance is
silently discarded, and `some argv` when `subprocess.run` is invoked, where
`argv` is the command line handed to the speech collaborator. -/
def say (text : String) (voice : String) : Option (List String) :=
  let clean := sanitize text
  if pyStripChars clean.data = [] ∨ 200 < clean.data.length then none
  else some ["say", "-v", voice, clean]

/-- The intermediate `normalized = author.lower().strip().lstrip("@")` of
`friendly_name`.  Note Python's `lstrip("@")` removes ALL leading `@`. -/
def normalizedOf (author : String) : String :=
  ⟨(pyStripChars (author.data.map Char.toLower)).dropWhile (fun c => c == '@')⟩

/-- Embedding of `friendly_name(author)`. -/
def friendly_name (author : String) : String :=
  if normalizedOf author = "nu11" ∨ normalizedOf author = "null" then "null"
  else author

/-- Per-message output of the main loop body: the line printed to standard
output, and the speech-command invocation (if any) produced by `say`. -/
structure MsgOutput where
  printed : String
  spoken : Option (List String)
deriving DecidableEq, Repr

/-- Embedding of the per-message processing in `main`:
`print(f"{author}: {message}")` then
`say(f"{friendly_name(author)} says: {message}")`. -/
def processMessage (author message : String) : MsgOutput :=
  { printed := author ++ ": " ++ message
    spoken := say (friendly_name author ++ " says: " ++ message) "Samantha" }

/-- Outcome of program start-up (the argument check in `main`). -/
structure StartResult where
  printed : List String
  exitCode : Option Nat
  sessionOpened : Bool
deriving DecidableEq, Repr

/-- The two usage lines printed when the video-id argument is missing. -/
def usageLines : List String :=
  ["Usage: python youtube_say.py VIDEO_ID",
   "Example: python youtube_say.py dQw4w9WgXcQ"]

/-- Embedding of the start of `main`: `argv` includes the program name, so the
check is `len(sys.argv) < 2`.  On failure the usage lines are printed and the
process exits with status 1 before `pytchat.create` is ever called. -/
def mainStart (argv : List String) : StartResult :=
  if argv.length < 2 then
    { printed := usageLines, exitCode := some 1, sessionOpened := false }
  else
    { printed := ["Connecting to live chat for video: " ++ argv.getD 1 ""]
      exitCode := none
      sessionOpened := true }

/-- The printed lines produced by one fetched batch of (author, message). -/
def batchLines (batch : List (String × String)) : List String :=
  batch.map (fun m => m.1 ++ ": " ++ m.2)

/-- Result of running the main polling loop to termination. -/
structure LoopResult where
  printed : List String
  batchesFetched : Nat
  exitCode : Nat
deriving DecidableEq, Repr

/-- Embedding of the `while chat.is_alive()` loop of `main`.  The chat session
is modelled by its observable behaviour at each poll `i`: `alive i` is the
answer of `is_alive()` and `batch i` the messages of `get().sync_items()`.
Fuel bounds the number of polls; `none` means the fuel ran out before the
session reported not-alive. -/
def runLoop (alive : Nat → Bool) (batch : Nat → List (String × String)) :
    Nat → Nat → Option LoopResult
  | 0, _ => none
  | fuel + 1, i =>
    if alive i then
      match runLoop alive batch fuel (i + 1) with
      | none => none
      | some r =>
          some { printed := batchLines (batch i) ++ r.printed
                 batchesFetched := r.batchesFetched + 1
                 exitCode := r.exitCode }
    else
      some { printed := ["Chat ended or stream offline."]
             batchesFetched := 0
             exitCode := 0 }

/-! Spec-side definitions, written from the specification's words, for the
refinement-style claims that compare the code with the spec. -/

/-- Spec's words for name normalization: strip a SINGLE leading `@`. -/
def stripSingleAt (cs : List Char) : List Char :=
  if cs.head? = some '@' then cs.tail else cs

/-- Spec's normalized form: lowercase, trim, strip one leading `@`. -/
def specNormalizedOf (author : String) : String :=
  ⟨stripSingleAt (pyStripChars (author.data.map Char.toLower))⟩

/-- Spec's words for sanitization: REMOVE all double quotes, single quotes and
newline characters, and nothing else. -/
def specSanitize (s : String) : String :=
  ⟨s.data.filter (fun c => !(c == dquote || c == squote || c == '\n'))⟩

/-- Single-pass description of what the code's sanitization actually does:
drop quotes, turn newlines into spaces, keep everything else. -/
def charSan (c : Char) : Option Char :=
  if c == dquote || c == squote then none
  else if c == '\n' then some ' ' else some c

/-! ### Helper lemmas -/

theorem sanitizeChars_append (l1 l2 : List Char) :
    sanitizeChars (l1 ++ l2) = sanitizeChars l1 ++ sanitizeChars l2 := by
  simp [sanitizeChars, List.filter_append, List.map_append]

theorem sanitizeChars_mem (l : List Char) (c : Char) (hc : c ∈ sanitizeChars l) :
    c ≠ dquote ∧ c ≠ squote ∧ c ≠ '\n' := by
  simp only [sanitizeChars, List.mem_map, List.mem_filter] at hc
  obtain ⟨c', ⟨⟨_, h1⟩, h2⟩, heq⟩ := hc
  subst heq
  by_cases h : c' = '\n'
  · subst h; refine ⟨by decide, by decide, by decide⟩
  · rw [if_neg (by simpa using h)]
    exact ⟨by simpa using h1, by simpa using h2, h⟩

theorem pyStripChars_length_le (l : List Char) :
    (pyStripChars l).length ≤ l.length := by
  simp only [pyStripChars, List.length_reverse]
  calc ((l.dropWhile pyWhitespace).reverse.dropWhile pyWhitespace).length
      ≤ (l.dropWhile pyWhitespace).reverse.length :=
        (List.dropWhile_sublist _).length_le
    _ = (l.dropWhile pyWhitespace).length := List.length_reverse _
    _ ≤ l.length := (List.dropWhile_sublist _).length_le

theorem dropWhile_eq_of_stripSingleAt (l : List Char)
    (h : stripSingleAt l = "nu11".data ∨ stripSingleAt l = "null".data) :
    l.dropWhile (fun c => c == '@') = stripSingleAt l := by
  match l with
  | [] =>
    rcases h with h | h <;> exact absurd h (by decide)
  | c :: t =>
    by_cases hc : c = '@'
    · subst hc
      have hs : stripSingleAt ('@' :: t) = t := by simp [stripSingleAt]
      rw [hs] at h ⊢
      rcases h with h | h <;> subst h <;> decide
    · have hs : stripSingleAt (c :: t) = c :: t := by
        simp only [stripSingleAt, List.head?]
        rw [if_neg]
        simpa using hc
      rw [hs]
      rw [List.dropWhile_cons_of_neg (by simpa using hc)]

/-! ### Claims about name normalization -/

/-- C2 counterexample: for the author `"@@null"`, the claim's normalized form
(single leading `@` stripped) is `"@null"`, which is neither `"nu11"` nor
`"null"`, so the claim demands identity; but `friendly_name` strips ALL leading
`@` characters and returns `"null"`, not the original string. -/
theorem c2_counterexample :
    specNormalizedOf "@@null" ≠ "nu11" ∧ specNormalizedOf "@@null" ≠ "null" ∧
      friendly_name "@@null" = "null" ∧ friendly_name "@@null" ≠ "@@null" := by
  decide

/-- C2 (amended): for every author string whose lowercased, whitespace-trimmed
form, with ALL leading `@` characters removed, is neither `"nu11"` nor
`"null"`, `friendly_name` returns the original author string unchanged. -/
theorem c2_identity_amended (a : String)
    (h1 : normalizedOf a ≠ "nu11") (h2 : normalizedOf a ≠ "null") :
    friendly_name a = a := by
  unfold friendly_name
  rw [if_neg]
  rintro (h | h)
  · exact h1 h
  · exact h2 h

/-- C2 witness: the author `"@Foo"` is returned as `"@Foo"`. -/
theorem c2_identity_witness : friendly_name "@Foo" = "@Foo" :=
  c2_identity_amended "@Foo" (by decide) (by decide)

/-- C3: for every author string whose lowercased, trimmed, leading-`@`-stripped
form equals `"nu11"` or `"null"`, `friendly_name` returns the literal
`"null"`. -/
theorem c3_null_normalization (a : String)
    (h : specNormalizedOf a = "nu11" ∨ specNormalizedOf a = "null") :
    friendly_name a = "null" := by
  have h' : stripSingleAt (pyStripChars (a.data.map Char.toLower)) = "nu11".data ∨
      stripSingleAt (pyStripChars (a.data.map Char.toLower)) = "null".data := by
    rcases h with h | h
    · exact Or.inl (congrArg String.data h)
    · exact Or.inr (congrArg String.data h)
  have hl := dropWhile_eq_of_stripSingleAt _ h'
  have hn : normalizedOf a = specNormalizedOf a := congrArg String.mk hl
  unfold friendly_name
  rw [hn, if_pos h]

/-- C3 witness: author `"Nu11"` with message `"hello world"` yields the spoken
text `"null says: hello world"` while the printed line is unchanged. -/
theorem c3_null_witness :
    friendly_name "Nu11" = "null" ∧
      (processMessage "Nu11" "hello world").printed = "Nu11: hello world" ∧
      (processMessage "Nu11" "hello world").spoken =
        some ["say", "-v", "Samantha", "null says: hello world"] :=
  ⟨c3_null_normalization "Nu11" (by decide), by decide, by decide⟩

/-- C10: `friendly_name` is idempotent. -/
theorem c10_idempotent (a : String) :
    friendly_name (friendly_name a) = friendly_name a := by
  have h : friendly_name a = "null" ∨ friendly_name a = a := by
    unfold friendly_name
    split
    · exact Or.inl rfl
    · exact Or.inr rfl
  rcases h with h | h
  · rw [h]; decide
  · rw [h]; exact h

/-! ### Claims about sanitization -/

/-- C4 counterexample: on input `"a\nb"` the code's sanitization yields
`"a b"` (the newline is replaced by a space), while the claim's
remove-the-newline sanitization yields `"ab"`. -/
theorem c4_counterexample :
    sanitize "a\nb" = "a b" ∧ specSanitize "a\nb" = "ab" ∧
      sanitize "a\nb" ≠ specSanitize "a\nb" := by
  decide

/-- C4 (amended): sanitization removes all double-quote and single-quote
characters, replaces every newline character by a space, and makes no other
change (single-pass description `charSan`). -/
theorem c4_sanitize_amended (s : String) :
    sanitize s = ⟨s.data.filterMap charSan⟩ := by
  apply congrArg String.mk
  induction s.data with
  | nil => rfl
  | cons c t ih =>
    simp only [sanitizeChars] at ih ⊢
    by_cases h1 : c = dquote
    · subst h1
      rw [List.filter_cons_of_neg (by simp), List.filterMap_cons_none (by decide), ih]
    · by_cases h2 : c = squote
      · subst h2
        rw [List.filter_cons_of_pos (by decide), List.filter_cons_of_neg (by simp),
          List.filterMap_cons_none (by decide), ih]
      · have hp : (!(c == dquote)) = true := by simpa using h1
        have hq : (!(c == squote)) = true := by simpa using h2
        have hcs : charSan c = some (if c == '\n' then ' ' else c) := by
          unfold charSan
          rw [if_neg (by simp [h1, h2])]
          by_cases h3 : (c == '\n') = true <;> simp [h3]
        rw [@List.filter_cons_of_pos Char (fun x => !(x == dquote)) c t hp,
          @List.filter_cons_of_pos Char (fun x => !(x == squote)) c _ hq,
          List.map_cons, ih, List.filterMap_cons_some hcs]

theorem sanitizeChars_replicate_x (n : Nat) :
    sanitizeChars (List.replicate n 'x') = List.replicate n 'x' := by
  induction n with
  | zero => rfl
  | succ n ih =>
    rw [List.replicate_succ]
    simp only [sanitizeChars] at ih ⊢
    rw [List.filter_cons_of_pos (by decide), List.filter_cons_of_pos (by decide),
      List.map_cons, ih]
    rfl

/-! ### Claims about `say` and the per-message processing -/

/-- C1: for every received message with author `a` and body `m`, the printed
line is `"{a}: {m}"` with both parts unmodified, and the string handed to
Speech Emission is `"{friendly_name(a)} says: {m}"`; moreover for a
250-character body no speech is emitted while the printed line is unchanged. -/
theorem c1_print_and_speak :
    (∀ a m : String, (processMessage a m).printed = a ++ ": " ++ m ∧
      (processMessage a m).spoken =
        say (friendly_name a ++ " says: " ++ m) "Samantha") ∧
    (∀ a : String,
      (processMessage a ⟨List.replicate 250 'x'⟩).printed =
        a ++ ": " ++ (⟨List.replicate 250 'x'⟩ : String) ∧
      (processMessage a ⟨List.replicate 250 'x'⟩).spoken = none) := by
  refine ⟨fun a m => ⟨rfl, by simp only [processMessage]⟩, fun a => ⟨rfl, ?_⟩⟩
  have key : 200 <
      (sanitize (friendly_name a ++ " says: " ++
        (⟨List.replicate 250 'x'⟩ : String))).data.length := by
    have hd : (friendly_name a ++ " says: " ++
        (⟨List.replicate 250 'x'⟩ : String)).data =
        (friendly_name a ++ " says: ").data ++ List.replicate 250 'x' := rfl
    show 200 < (sanitizeChars _).length
    rw [hd, sanitizeChars_append, sanitizeChars_replicate_x,
      List.length_append, List.length_replicate]
    omega
  simp only [processMessage, say]
  rw [if_pos (Or.inr key)]

/-- C5: whenever `say` invokes the external speech command, the text handed to
it (the last command-line argument) is the sanitized text, which contains no
double-quote, single-quote or newline character. -/
theorem c5_no_bad_chars (text voice : String) (out : List String)
    (h : say text voice = some out) :
    out = ["say", "-v", voice, sanitize text] ∧
      ∀ c ∈ (sanitize text).data, c ≠ dquote ∧ c ≠ squote ∧ c ≠ '\n' := by
  constructor
  · simp only [say] at h
    split at h
    · exact absurd h (by simp)
    · exact (Option.some.injEq _ _ ▸ h).symm
  · exact fun c hc => sanitizeChars_mem text.data c hc

/-- C5 witness. -/
theorem c5_witness :
    (["say", "-v", "Samantha", sanitize "hello"] : List String) =
        ["say", "-v", "Samantha", sanitize "hello"] ∧
      ∀ c ∈ (sanitize "hello").data, c ≠ dquote ∧ c ≠ squote ∧ c ≠ '\n' :=
  c5_no_bad_chars "hello" "Samantha" ["say", "-v", "Samantha", sanitize "hello"]
    (by decide)

/-- C6: if the sanitized text has an empty trimmed form, or its trimmed length
exceeds 200, then `say` silently discards the utterance: no speech-command
invocation is produced and `say` returns normally. -/
theorem c6_silent_discard (text voice : String)
    (h : pyStripChars (sanitize text).data = [] ∨
      200 < (pyStripChars (sanitize text).data).length) :
    say text voice = none := by
  simp only [say]
  rw [if_pos]
  rcases h with h | h
  · exact Or.inl h
  · exact Or.inr (lt_of_lt_of_le h (pyStripChars_length_le _))

/-- C6 witness: the empty utterance is discarded. -/
theorem c6_witness : say "" "Samantha" = none :=
  c6_silent_discard "" "Samantha" (Or.inl (by decide))

/-- C7 counterexample: 150 letters followed by 60 trailing spaces has trimmed
length 150 ≤ 200 and a nonempty trimmed form, yet `say` emits nothing, because
the code compares 200 against the UNTRIMMED length of the sanitized text. -/
theorem c7_counterexample :
    pyStripChars (sanitize ⟨List.replicate 150 'a' ++ List.replicate 60 ' '⟩).data ≠ [] ∧
      (pyStripChars
        (sanitize ⟨List.replicate 150 'a' ++ List.replicate 60 ' '⟩).data).length ≤ 200 ∧
      say ⟨List.replicate 150 'a' ++ List.replicate 60 ' '⟩ "Samantha" = none := by
  decide

/-- C7 (amended): if the sanitized text has a nonempty trimmed form and its
UNTRIMMED length is at most 200 characters, `say` invokes the external speech
command with the chosen voice and the sanitized text. -/
theorem c7_emits_amended (text voice : String)
    (h1 : pyStripChars (sanitize text).data ≠ [])
    (h2 : (sanitize text).data.length ≤ 200) :
    say text voice = some ["say", "-v", voice, sanitize text] := by
  simp only [say]
  rw [if_neg]
  rintro (h | h)
  · exact h1 h
  · omega

/-- C7 witness. -/
theorem c7_witness : say "hi" "Samantha" = some ["say", "-v", "Samantha", sanitize "hi"] :=
  c7_emits_amended "hi" "Samantha" (by decide) (by decide)

/-! ### Claims about program start-up and the polling loop -/

/-- C8: with the video-identifier argument missing (`argv` shorter than 2,
counting the program name), the program prints exactly the two usage lines,
exits with status 1, and never opens a chat session. -/
theorem c8_usage_exit (argv : List String) (h : argv.length < 2) :
    (mainStart argv).printed = usageLines ∧ (mainStart argv).printed.length = 2 ∧
      (mainStart argv).exitCode = some 1 ∧ (mainStart argv).sessionOpened = false := by
  simp [mainStart, h, usageLines]

/-- C8 witness: invocation with only the program name. -/
theorem c8_witness :
    (mainStart ["youtube_say.py"]).printed = usageLines ∧
      (mainStart ["youtube_say.py"]).printed.length = 2 ∧
      (mainStart ["youtube_say.py"]).exitCode = some 1 ∧
      (mainStart ["youtube_say.py"]).sessionOpened = false :=
  c8_usage_exit ["youtube_say.py"] (by decide)

theorem runLoop_succ (alive : Nat → Bool) (batch : Nat → List (String × String))
    (fuel i : Nat) :
    runLoop alive batch (fuel + 1) i =
      if alive i then
        match runLoop alive batch fuel (i + 1) with
        | none => none
        | some r =>
            some { printed := batchLines (batch i) ++ r.printed
                   batchesFetched := r.batchesFetched + 1
                   exitCode := r.exitCode }
      else
        some { printed := ["Chat ended or stream offline."]
               batchesFetched := 0
               exitCode := 0 } := rfl

theorem runLoop_stops (alive : Nat → Bool) (batch : Nat → List (String × String)) :
    ∀ n i, (∀ k, k < n → alive (i + k) = true) → alive (i + n) = false →
    ∃ r pre, runLoop alive batch (n + 1) i = some r ∧
      r.printed = pre ++ ["Chat ended or stream offline."] ∧
      r.batchesFetched = n ∧ r.exitCode = 0 := by
  intro n
  induction n with
  | zero =>
    intro i _ hdead
    have hd : alive i = false := by simpa using hdead
    exact ⟨⟨["Chat ended or stream offline."], 0, 0⟩, [],
      by simp [runLoop, hd], rfl, rfl, rfl⟩
  | succ n ih =>
    intro i halive hdead
    have h0 : alive i = true := halive 0 (Nat.succ_pos n)
    have hk' : ∀ k, k < n → alive (i + 1 + k) = true := by
      intro k hk
      have h := halive (k + 1) (by omega)
      have heq : i + (k + 1) = i + 1 + k := by omega
      rwa [heq] at h
    have hd' : alive (i + 1 + n) = false := by
      have heq : i + (n + 1) = i + 1 + n := by omega
      rwa [heq] at hdead
    obtain ⟨r, pre, hrun, hpr, hf, he⟩ := ih (i + 1) hk' hd'
    refine ⟨⟨batchLines (batch i) ++ r.printed, r.batchesFetched + 1, r.exitCode⟩,
      batchLines (batch i) ++ pre, ?_, ?_, ?_, ?_⟩
    · rw [runLoop_succ, hrun, if_pos h0]
    · simp [hpr, List.append_assoc]
    · simp [hf]
    · exact he

/-- C9: if the session reports not-alive at poll `n` (having been alive at all
earlier polls), the main loop terminates at that poll having fetched exactly
`n` batches, prints the termination notice as its last line, and returns
normally with exit status 0. -/
theorem c9_loop_termination (alive : Nat → Bool)
    (batch : Nat → List (String × String)) (n : Nat)
    (halive : ∀ k, k < n → alive k = true) (hdead : alive n = false) :
    ∃ r pre, runLoop alive batch (n + 1) 0 = some r ∧
      r.printed = pre ++ ["Chat ended or stream offline."] ∧
      r.batchesFetched = n ∧ r.exitCode = 0 :=
  runLoop_stops alive batch n 0 (fun k hk => by simpa using halive k hk)
    (by simpa using hdead)

/-- C9 witness: a session that is dead at the first poll. -/
theorem c9_witness :
    ∃ r pre, runLoop (fun _ => false) (fun _ => []) 1 0 = some r ∧
      r.printed = pre ++ ["Chat ended or stream offline."] ∧
      r.batchesFetched = 0 ∧ r.exitCode = 0 :=
  c9_loop_termination (fun _ => false) (fun _ => []) 0
    (fun k hk => absurd hk (by omega)) rfl

end YoutubeSay
